import Mathlib

/-!
Shallow embedding of `main.py` of the AISCUW_Spring_2025 backend service
(FastAPI app with a `/submit` intake handler, a `/chatbot` consult handler,
and a Hugging Face inference client `generate_ai_response`).

External effects (the HTTP call to the inference endpoint, the MySQL
connection and statement outcomes) are inputs to the embedded handlers;
the relational store is an explicit state value threaded through.
-/

namespace Clinic

/-- JSON values as produced by `response.json()` in `generate_ai_response`
(`src/main.py` line 37).  Numbers are modelled as integers: no claim
exercises a fractional JSON number. -/
inductive JsonVal : Type where
  | jnull : JsonVal
  | jbool : Bool → JsonVal
  | jnum : Int → JsonVal
  | jstr : String → JsonVal
  | jarr : List JsonVal → JsonVal
  | jobj : List (String × JsonVal) → JsonVal

/-- Python dict lookup `d.get(k)` / `d[k]` on a JSON object, modelled as an
association list with distinct keys (JSON objects decoded by `json` have
unique keys, last-wins; claims use no duplicate keys). -/
def pyGet (fields : List (String × JsonVal)) (key : String) : Option JsonVal :=
  Option.map Prod.snd (fields.find? (fun kv => kv.1 == key))

/-- Prefix test on character lists (helper for the Python substring and
`str.split` semantics). -/
def isPrefixOfChars : List Char → List Char → Bool
  | [], _ => true
  | _ :: _, [] => false
  | c :: cs, d :: ds => c == d && isPrefixOfChars cs ds

/-- Python substring test `needle in hay` for strings. -/
def containsSubstr (needle : List Char) : List Char → Bool
  | [] => needle.isEmpty
  | c :: cs => isPrefixOfChars needle (c :: cs) || containsSubstr needle cs

/-- Characters removed by Python `str.strip()` (the ASCII whitespace set
` \t\n\r\v\f`; no claim involves non-ASCII whitespace). -/
def pyWhitespace (c : Char) : Bool :=
  c == ' ' || c == '\t' || c == '\n' || c == '\r' ||
    c == Char.ofNat 11 || c == Char.ofNat 12

/-- Python `str.strip()` on a character list. -/
def pyStripList (l : List Char) : List Char :=
  ((l.dropWhile pyWhitespace).reverse.dropWhile pyWhitespace).reverse

/-- Python `str.strip()`. -/
def pyStrip (s : String) : String := String.mk (pyStripList s.toList)

/-- Python `str.split(sep)` for a non-empty separator: non-overlapping
occurrences scanned left to right.  `fuel` bounds the recursion; callers
pass the input length plus one, which is more than enough because every
step consumes at least one character. -/
def pySplitAux (sep : List Char) : Nat → List Char → List Char → List (List Char)
  | 0, rest, acc => [acc.reverse ++ rest]
  | _ + 1, [], acc => [acc.reverse]
  | fuel + 1, c :: cs, acc =>
    if isPrefixOfChars sep (c :: cs) then
      acc.reverse :: pySplitAux sep fuel (List.drop (sep.length - 1) cs) []
    else
      pySplitAux sep fuel cs (c :: acc)

/-- Python `s.split(sep)` (non-empty `sep`). -/
def pySplit (s sep : String) : List String :=
  (pySplitAux sep.toList (s.toList.length + 1) s.toList []).map String.mk

/-- The success-path post-processing of `generate_ai_response`
(`src/main.py` line 42): `text.split("Assistant:")[-1].strip()` — the text
after the last occurrence of the literal marker `"Assistant:"`, with
surrounding whitespace stripped. -/
def pyPostprocess (s : String) : String :=
  pyStrip (List.getLastD (pySplit s "Assistant:") "")

/-- Outcomes of `generate_ai_response`, one constructor per distinct raise
site of `src/main.py`:
* `transportError msg` — `RuntimeError("Failed to contact Hugging Face API: " + msg)`, line 39;
* `modelError v`       — `RuntimeError("Model error: " + str(v))`, line 44, carrying the `error` field value;
* `unexpectedResponseShape` — `RuntimeError("Unexpected API response format.")`, line 46;
* `indexError`       — uncaught Python `IndexError` from `result[0]` on an empty list, line 41;
* `typeError`        — uncaught Python `TypeError` from `in` on a non-container first element, or from subscripting a string/list with a string key, line 41;
* `attributeError`   — uncaught Python `AttributeError` from `.split` on a non-string `generated_text` value, line 42. -/
inductive GenError : Type where
  | transportError : String → GenError
  | modelError : JsonVal → GenError
  | unexpectedResponseShape : GenError
  | indexError : GenError
  | typeError : GenError
  | attributeError : GenError

/-- Python membership `"k" in x` (`src/main.py` lines 41 and 43): key test
on a dict, substring test on a string, element test on a list, and a
`TypeError` on the remaining types. -/
def pyContains (needle : String) : JsonVal → Except GenError Bool
  | JsonVal.jobj fields => Except.ok (fields.any (fun kv => kv.1 == needle))
  | JsonVal.jstr s => Except.ok (containsSubstr needle.toList s.toList)
  | JsonVal.jarr xs =>
      Except.ok (xs.any (fun v => match v with
        | JsonVal.jstr t => t == needle
        | _ => false))
  | _ => Except.error GenError.typeError

/-- The response-shape branch of `generate_ai_response`
(`src/main.py` lines 41-46), applied to the decoded JSON value.  This code
sits outside the `try` of lines 35-39, so the Python `IndexError` /
`TypeError` / `AttributeError` cases escape unclassified. -/
def normalizeResponse : JsonVal → Except GenError String
  | JsonVal.jarr [] => Except.error GenError.indexError
  | JsonVal.jarr (first :: _) =>
    match pyContains "generated_text" first with
    | Except.error e => Except.error e
    | Except.ok true =>
      match first with
      | JsonVal.jobj fields =>
        match pyGet fields "generated_text" with
        | some (JsonVal.jstr s) => Except.ok (pyPostprocess s)
        | some _ => Except.error GenError.attributeError
        | none => Except.error GenError.unexpectedResponseShape
      | _ => Except.error GenError.typeError
    | Except.ok false => Except.error GenError.unexpectedResponseShape
  | JsonVal.jobj fields =>
    match pyGet fields "error" with
    | some v => Except.error (GenError.modelError v)
    | none => Except.error GenError.unexpectedResponseShape
  | _ => Except.error GenError.unexpectedResponseShape

/-- Outcome of the remote HTTP exchange (`src/main.py` lines 36-37):
either the `requests.post` / `response.json()` pair raised (network
failure, timeout, undecodable body) or it produced a decoded JSON value. -/
inductive RemoteOutcome : Type where
  | transportFail : String → RemoteOutcome
  | parsed : JsonVal → RemoteOutcome

/-- `generate_ai_response` (`src/main.py` lines 21-46) as a function of the
remote exchange outcome: transport failures are wrapped at line 39, decoded
values flow into the shape branch of lines 41-46. -/
def generate_ai_response : RemoteOutcome → Except GenError String
  | RemoteOutcome.transportFail msg => Except.error (GenError.transportError msg)
  | RemoteOutcome.parsed v => normalizeResponse v

/-- The intake payload schema `PatientInput` (`src/main.py` lines 49-56).
The pydantic `float` fields `weight` and `height` are modelled as rationals:
they are stored opaquely and no claim performs floating-point arithmetic. -/
structure PatientInput where
  name : String
  age : Int
  weight : Rat
  height : Rat
  allergies : String
  medical_history : String
  symptoms : String

/-- A row of the `patients` table (`src/main.py` lines 96-99, schema in the
spec).  `id` is the store-assigned auto-increment key. -/
structure PatientRow where
  id : Nat
  name : String
  age : Int
  weight : Rat
  height : Rat
  allergies : String
  medical_history : String
  symptoms : String

/-- A row of the `prescriptions` table (`src/main.py` lines 117-120). -/
structure PrescriptionRow where
  id : Nat
  patient_id : Nat
  ai_summary : String
  treatment_options : String
  medication_recommendations : String

/-- The relational store: the two tables plus the auto-increment counters
that produce `cursor.lastrowid` (`src/main.py` line 101). -/
structure DB where
  patients : List PatientRow
  prescriptions : List PrescriptionRow
  nextPatientId : Nat
  nextPrescriptionId : Nat

/-- The patient row inserted by the intake handler (`src/main.py`
lines 96-99) for a given payload and assigned identifier. -/
def PatientInput.toRow (data : PatientInput) (id : Nat) : PatientRow :=
  ⟨id, data.name, data.age, data.weight, data.height,
    data.allergies, data.medical_history, data.symptoms⟩

/-- The intake prompt (`src/main.py` lines 104-113): the f-string rendered
over the structured payload fields, byte for byte (including the leading
and trailing newline of the triple-quoted literal; `{data.age}` renders via
Python `str(int)`, matching `toString` on `Int`). -/
def intakePrompt (data : PatientInput) : String :=
  "\nPatient is a " ++ toString data.age ++ "-year-old with symptoms: " ++
    data.symptoms ++ ".\nMedical history: " ++ data.medical_history ++
    ".\nAllergies: " ++ data.allergies ++
    ".\n\nGenerate:\n1. A summary of the patient\x27s condition\n2. Possible treatment options\n3. Recommended medications\n"

/-- The row shape returned by the `/chatbot` SELECT join (`src/main.py`
lines 146-152): the projected patient columns plus the three prescription
text columns. -/
structure ConsultRow where
  name : String
  age : Int
  allergies : String
  medical_history : String
  symptoms : String
  ai_summary : String
  treatment_options : String
  medication_recommendations : String

/-- Python `str()` of a decoded JSON value, as used by the f-strings.
Scalars are rendered exactly; the rendering of nested containers is
abbreviated (no claim reads a container rendering). -/
def pyStr : JsonVal → String
  | JsonVal.jnull => "None"
  | JsonVal.jbool true => "True"
  | JsonVal.jbool false => "False"
  | JsonVal.jnum n => toString n
  | JsonVal.jstr s => s
  | JsonVal.jarr _ => "[...]"
  | JsonVal.jobj _ => "\x7b...\x7d"

/-- The consult prompt (`src/main.py` lines 162-178): the f-string rendered
over the joined row and the free-text message, byte for byte. -/
def consultPrompt (row : ConsultRow) (userMessage : JsonVal) : String :=
  "\nYou are an AI medical assistant. A doctor is reviewing a case with the following patient data:\n\nPatient Name: " ++
    row.name ++ "\nAge: " ++ toString row.age ++ "\nSymptoms: " ++
    row.symptoms ++ "\nMedical History: " ++ row.medical_history ++
    "\nAllergies: " ++ row.allergies ++ "\n\nAI-Generated Summary: " ++
    row.ai_summary ++ "\nAI Treatment Options: " ++ row.treatment_options ++
    "\nAI Medication Recommendations: " ++ row.medication_recommendations ++
    "\n\nThe doctor asks: " ++ pyStr userMessage ++
    "\n\nRespond clearly and concisely as if advising a medical team.\n"

/-- Python truthiness of a decoded JSON value, as tested by
`if not patient_id or not user_message` (`src/main.py` line 139). -/
def JsonVal.truthy : JsonVal → Bool
  | JsonVal.jnull => false
  | JsonVal.jbool b => b
  | JsonVal.jnum n => n != 0
  | JsonVal.jstr s => s != ""
  | JsonVal.jarr l => !l.isEmpty
  | JsonVal.jobj l => !l.isEmpty

/-- Whether the bound parameter of `WHERE p.id = %s` (`src/main.py`
line 151) matches a given row id.  A non-numeric bound value is modelled as
matching no row; every claim exercises only numeric, falsy or absent
identifiers. -/
def pidMatches (pid : JsonVal) (rowId : Nat) : Bool :=
  match pid with
  | JsonVal.jnum n => (rowId : Int) == n
  | _ => false

/-- The `/chatbot` SELECT join with `fetchone()` (`src/main.py`
lines 146-153): the first patient matching the identifier paired with its
first prescription (primary keys are unique, as in the schema). -/
def lookupJoin (db : DB) (pid : JsonVal) : Option ConsultRow :=
  match db.patients.find? (fun p => pidMatches pid p.id) with
  | none => none
  | some p =>
    match db.prescriptions.find? (fun r => r.patient_id == p.id) with
    | none => none
    | some r =>
      some ⟨p.name, p.age, p.allergies, p.medical_history, p.symptoms,
        r.ai_summary, r.treatment_options, r.medication_recommendations⟩

/-- Observable per-request events, recorded in order: connection opened /
closed (`get_connection()` and `conn.close()`), the SELECT of the consult
handler, and a call to `generate_ai_response` with its prompt. -/
inductive Event : Type where
  | connOpen : Event
  | connClose : Event
  | storeLookup : Event
  | modelCall : String → Event

/-- `str(e)` of a starlette `HTTPException(status, detail)`, i.e.
`"<status>: <detail>"` — the shape a swallowed `HTTPException` takes when
re-raised by the broad `except Exception` handlers (lines 131-132 and
182-183). -/
def httpExcStr (status : Nat) (detail : String) : String :=
  toString status ++ ": " ++ detail

/-- `str(e)` of each inference-client failure, used as the detail of the
500 re-raised by the handlers.  The exact interpreter text of the uncaught
`IndexError`/`TypeError`/`AttributeError` messages is not load-bearing for
any claim; the RuntimeError messages are rendered exactly as raised. -/
def strOfGenError : GenError → String
  | GenError.transportError m => "Failed to contact Hugging Face API: " ++ m
  | GenError.modelError v => "Model error: " ++ pyStr v
  | GenError.unexpectedResponseShape => "Unexpected API response format."
  | GenError.indexError => "list index out of range"
  | GenError.typeError => "TypeError"
  | GenError.attributeError => "AttributeError"

/-- External outcomes governing one `/submit` request: whether
`get_connection()` fails (`some msg` carries the operational message of the
HTTPException raised at line 68), whether each INSERT raises, and the
outcome of the remote model exchange. -/
structure SubmitEnv where
  connFail : Option String
  insertPatientFail : Option String
  remote : RemoteOutcome
  insertPrescriptionFail : Option String

/-- Response of the `/submit` handler: the success body carries the new
patient identifier (line 126-129); failures are `HTTPException(status, detail)`. -/
inductive SubmitResult : Type where
  | ok : Nat → SubmitResult
  | httpError : Nat → String → SubmitResult

/-- Full observable outcome of one `/submit` request. -/
structure SubmitOutcome where
  result : SubmitResult
  db : DB
  events : List Event

/-- The `/submit` handler `submit_patient` (`src/main.py` lines 89-132).
The whole body sits in one `try` whose `except Exception` re-raises any
failure as `HTTPException(500, str(e))`; there is no `finally` and no
context manager, so `conn.close()` (line 124) runs only on the success
path.  `cursor.execute` + `conn.commit` for an INSERT is modelled as one
atomic append (no claim distinguishes execute from commit). -/
def submit_patient (data : PatientInput) (env : SubmitEnv) (db : DB) :
    SubmitOutcome :=
  match env.connFail with
  | some msg =>
    -- get_connection raises HTTPException(500, "Database connection failed: ...")
    -- (line 68), caught at line 131 and re-raised as HTTPException(500, str(e)).
    ⟨SubmitResult.httpError 500 (httpExcStr 500 ("Database connection failed: " ++ msg)),
      db, []⟩
  | none =>
    match env.insertPatientFail with
    | some msg => ⟨SubmitResult.httpError 500 msg, db, [Event.connOpen]⟩
    | none =>
      let pid := db.nextPatientId
      let db1 : DB :=
        { db with
          patients := db.patients ++ [data.toRow pid],
          nextPatientId := pid + 1 }
      let prompt := intakePrompt data
      match generate_ai_response env.remote with
      | Except.error e =>
        ⟨SubmitResult.httpError 500 (strOfGenError e), db1,
          [Event.connOpen, Event.modelCall prompt]⟩
      | Except.ok ai_output =>
        match env.insertPrescriptionFail with
        | some msg =>
          ⟨SubmitResult.httpError 500 msg, db1,
            [Event.connOpen, Event.modelCall prompt]⟩
        | none =>
          ⟨SubmitResult.ok pid,
            { db1 with
              prescriptions := db1.prescriptions ++
                [⟨db.nextPrescriptionId, pid, ai_output, ai_output, ai_output⟩],
              nextPrescriptionId := db.nextPrescriptionId + 1 },
            [Event.connOpen, Event.modelCall prompt, Event.connClose]⟩

/-- External outcomes governing one `/chatbot` request: connection failure,
failure of the SELECT/fetch, and the remote model exchange. -/
structure ChatEnv where
  connFail : Option String
  queryFail : Option String
  remote : RemoteOutcome

/-- Response of the `/chatbot` handler: the success body carries the
trimmed reply (line 180); failures are `HTTPException(status, detail)`. -/
inductive ChatResult : Type where
  | ok : String → ChatResult
  | httpError : Nat → String → ChatResult

/-- Full observable outcome of one `/chatbot` request (the handler never
writes, so the store is not part of the outcome). -/
structure ChatOutcome where
  result : ChatResult
  events : List Event

/-- Detail of the 400 raised at `src/main.py` line 140. -/
def requiredFieldsMsg : String :=
  "Both \x27patient_id\x27 and \x27message\x27 are required."

/-- The `/chatbot` handler `chatbot_query` (`src/main.py` lines 134-183).
The missing/falsy-field check (lines 136-140) runs before the `try`, so its
400 reaches the client; the `HTTPException(404)` of line 159 is raised
inside the `try` and is caught by the broad `except Exception` of line 182,
which re-raises it as `HTTPException(500, str(e))`.  `conn.close()`
(line 156) runs after the fetch, before the not-found check and the model
call, and is skipped if the SELECT itself raises. -/
def chatbot_query (payload : List (String × JsonVal)) (env : ChatEnv)
    (db : DB) : ChatOutcome :=
  match pyGet payload "patient_id", pyGet payload "message" with
  | some pid, some msg =>
    if pid.truthy && msg.truthy then
      match env.connFail with
      | some cmsg =>
        ⟨ChatResult.httpError 500
            (httpExcStr 500 ("Database connection failed: " ++ cmsg)), []⟩
      | none =>
        match env.queryFail with
        | some qmsg => ⟨ChatResult.httpError 500 qmsg, [Event.connOpen]⟩
        | none =>
          match lookupJoin db pid with
          | none =>
            -- line 159's 404, swallowed by line 182 into a 500
            ⟨ChatResult.httpError 500 (httpExcStr 404 "Patient not found."),
              [Event.connOpen, Event.storeLookup, Event.connClose]⟩
          | some row =>
            let prompt := consultPrompt row msg
            match generate_ai_response env.remote with
            | Except.error e =>
              ⟨ChatResult.httpError 500 (strOfGenError e),
                [Event.connOpen, Event.storeLookup, Event.connClose,
                  Event.modelCall prompt]⟩
            | Except.ok reply =>
              ⟨ChatResult.ok (pyStrip reply),
                [Event.connOpen, Event.storeLookup, Event.connClose,
                  Event.modelCall prompt]⟩
    else ⟨ChatResult.httpError 400 requiredFieldsMsg, []⟩
  | _, _ => ⟨ChatResult.httpError 400 requiredFieldsMsg, []⟩

/-! Concrete sample values used by witnesses and concrete evaluations. -/

/-- A representative valid intake payload. -/
def sampleInput : PatientInput :=
  ⟨"Alice", 30, 70, 170, "penicillin", "asthma", "cough"⟩

/-- An empty store whose auto-increment counters start at 1, as MySQL
auto-increment columns do. -/
def emptyDB : DB := ⟨[], [], 1, 1⟩

/-- A remote exchange that succeeds with generated text `"ok"`. -/
def okRemote : RemoteOutcome :=
  RemoteOutcome.parsed (JsonVal.jarr [JsonVal.jobj [("generated_text", JsonVal.jstr "ok")]])

/-- A consult-request environment in which every external step succeeds. -/
def chatEnvOk : ChatEnv := ⟨none, none, okRemote⟩

/-! Claim theorems. -/

/-- C1: for every valid intake payload, a successful call to the `/submit`
handler creates exactly one patient row and exactly one prescription row
linked to it by the new patient identifier, and all three text fields of
that prescription row (`ai_summary`, `treatment_options`,
`medication_recommendations`) equal the single normalized string returned
by the inference client. -/
theorem submit_success_creates_rows (data : PatientInput) (env : SubmitEnv)
    (db : DB) (s : String)
    (hconn : env.connFail = none)
    (hins : env.insertPatientFail = none)
    (hins2 : env.insertPrescriptionFail = none)
    (hmodel : generate_ai_response env.remote = Except.ok s) :
    (submit_patient data env db).result = SubmitResult.ok db.nextPatientId ∧
    (submit_patient data env db).db.patients =
      db.patients ++ [data.toRow db.nextPatientId] ∧
    (submit_patient data env db).db.prescriptions =
      db.prescriptions ++
        [⟨db.nextPrescriptionId, db.nextPatientId, s, s, s⟩] := by
  simp [submit_patient, hconn, hins, hins2, hmodel]

theorem submit_success_creates_rows_witness :
    generate_ai_response okRemote = Except.ok "ok" ∧
    (submit_patient sampleInput ⟨none, none, okRemote, none⟩ emptyDB).result =
      SubmitResult.ok 1 ∧
    (submit_patient sampleInput ⟨none, none, okRemote, none⟩ emptyDB).db.prescriptions =
      [⟨1, 1, "ok", "ok", "ok"⟩] := by
  have h := submit_success_creates_rows sampleInput ⟨none, none, okRemote, none⟩
    emptyDB "ok" rfl rfl rfl rfl
  exact ⟨rfl, h.1, by simpa [emptyDB] using h.2.2⟩

/-- C2 (evaluation at the failing input): on the empty-sequence response
`[]`, `generate_ai_response` fails with the uncaught Python `IndexError`
raised by `result[0]` at line 41 — an unclassified crash — while the
null and bare-string responses are classified as the unexpected-shape
RuntimeError of line 46, as the claim says. -/
theorem empty_list_response_uncaught_index_error :
    generate_ai_response (RemoteOutcome.parsed (JsonVal.jarr [])) =
      Except.error GenError.indexError ∧
    generate_ai_response (RemoteOutcome.parsed JsonVal.jnull) =
      Except.error GenError.unexpectedResponseShape ∧
    generate_ai_response (RemoteOutcome.parsed (JsonVal.jstr "hello")) =
      Except.error GenError.unexpectedResponseShape :=
  ⟨rfl, rfl, rfl⟩

/-- C4 (counterexample): on the single-element sequence whose
generated-text field is `"Role: RESPONSE"`, the inference client returns
`"Role: RESPONSE"` unchanged, which differs from the `"RESPONSE"` that the
claim requires — line 42 strips only the literal marker `"Assistant:"`,
not arbitrary role prefixes. -/
theorem role_prefix_not_stripped :
    generate_ai_response (RemoteOutcome.parsed
        (JsonVal.jarr [JsonVal.jobj [("generated_text", JsonVal.jstr "Role: RESPONSE")]])) =
      Except.ok "Role: RESPONSE" ∧
    (("Role: RESPONSE" : String) == "RESPONSE") = false :=
  ⟨rfl, rfl⟩

/-- C4 (amended): the inference client strips only the literal
`"Assistant:"` role marker — it returns the text after the last occurrence
of `"Assistant:"` in the generated-text field with surrounding whitespace
trimmed, so `"Assistant: RESPONSE"` yields `"RESPONSE"` (and stray
surrounding whitespace is trimmed even without a marker), while other role
markers such as `"Role:"` are returned verbatim. -/
theorem assistant_marker_stripped :
    generate_ai_response (RemoteOutcome.parsed
        (JsonVal.jarr [JsonVal.jobj [("generated_text", JsonVal.jstr "Assistant: RESPONSE")]])) =
      Except.ok "RESPONSE" ∧
    generate_ai_response (RemoteOutcome.parsed
        (JsonVal.jarr [JsonVal.jobj [("generated_text", JsonVal.jstr "  RESPONSE  ")]])) =
      Except.ok "RESPONSE" :=
  ⟨rfl, rfl⟩

/-- C7: for every remote response shaped as an object carrying an `error`
field, the inference client fails with the classified `ModelError` carrying
that field's value (line 44) — never with `TransportError` or
`UnexpectedResponseShape`. -/
theorem model_error_classified (fields : List (String × JsonVal)) (v : JsonVal)
    (h : pyGet fields "error" = some v) :
    generate_ai_response (RemoteOutcome.parsed (JsonVal.jobj fields)) =
      Except.error (GenError.modelError v) := by
  simp [generate_ai_response, normalizeResponse, h]

theorem model_error_classified_witness :
    pyGet [("error", JsonVal.jstr "overloaded")] "error" =
      some (JsonVal.jstr "overloaded") ∧
    generate_ai_response (RemoteOutcome.parsed
        (JsonVal.jobj [("error", JsonVal.jstr "overloaded")])) =
      Except.error (GenError.modelError (JsonVal.jstr "overloaded")) :=
  ⟨rfl, model_error_classified [("error", JsonVal.jstr "overloaded")]
    (JsonVal.jstr "overloaded") rfl⟩

/-- C3 (evaluation at the failing input): a consult request whose numeric
identifier matches no joined patient+prescription record reaches the
not-found branch, but the `HTTPException(404)` of line 159 is raised inside
the `try` and swallowed by the broad `except Exception` of line 182, so the
client receives a 500 whose detail is the stringified 404 — not a 404.  The
event trace shows the handler performs no inference call. -/
theorem chatbot_unknown_patient_returns_500 :
    (chatbot_query [("patient_id", JsonVal.jnum 7), ("message", JsonVal.jstr "hi")]
        chatEnvOk emptyDB).result =
      ChatResult.httpError 500 "404: Patient not found." ∧
    (chatbot_query [("patient_id", JsonVal.jnum 7), ("message", JsonVal.jstr "hi")]
        chatEnvOk emptyDB).events =
      [Event.connOpen, Event.storeLookup, Event.connClose] :=
  ⟨rfl, rfl⟩

/-- C5 (evaluation at the failing input): on the `/submit` path where the
model call fails, the handler returns its 500 with the connection it opened
still unclosed — the event trace opens the connection and never closes it,
because `conn.close()` (line 124) is only reached on the success path and
there is no `finally` or context manager. -/
theorem submit_error_leaks_connection :
    (submit_patient sampleInput
        ⟨none, none, RemoteOutcome.transportFail "timed out", none⟩ emptyDB).result =
      SubmitResult.httpError 500 "Failed to contact Hugging Face API: timed out" ∧
    (submit_patient sampleInput
        ⟨none, none, RemoteOutcome.transportFail "timed out", none⟩ emptyDB).events =
      [Event.connOpen, Event.modelCall (intakePrompt sampleInput)] :=
  ⟨rfl, rfl⟩

/-- C6: if the model call or the prescription insert fails after the
patient insert has committed, the intake handler aborts with a 500 and
leaves exactly one new patient row — orphaned, provided the store
references no prescription under the fresh identifier — and adds no
prescription row; the partial patient insert is not rolled back. -/
theorem submit_partial_write (data : PatientInput) (env : SubmitEnv) (db : DB)
    (hconn : env.connFail = none)
    (hins : env.insertPatientFail = none)
    (hfail : (∃ e, generate_ai_response env.remote = Except.error e) ∨
      env.insertPrescriptionFail ≠ none)
    (hfresh : ∀ r ∈ db.prescriptions, r.patient_id ≠ db.nextPatientId) :
    (∃ detail, (submit_patient data env db).result =
      SubmitResult.httpError 500 detail) ∧
    (submit_patient data env db).db.patients =
      db.patients ++ [data.toRow db.nextPatientId] ∧
    (submit_patient data env db).db.prescriptions = db.prescriptions ∧
    (∀ r ∈ (submit_patient data env db).db.prescriptions,
      r.patient_id ≠ db.nextPatientId) := by
  rcases hg : generate_ai_response env.remote with e | s
  · refine ⟨⟨strOfGenError e, ?_⟩, ?_, ?_, ?_⟩ <;>
      simp [submit_patient, hconn, hins, hg]
    exact fun r hr => hfresh r hr
  · rcases hfail with ⟨e, he⟩ | hpf
    · rw [hg] at he; exact absurd he (by simp)
    · rcases hp : env.insertPrescriptionFail with _ | m
      · exact absurd hp hpf
      · refine ⟨⟨m, ?_⟩, ?_, ?_, ?_⟩ <;>
          simp [submit_patient, hconn, hins, hg, hp]
        exact fun r hr => hfresh r hr

theorem submit_partial_write_witness :
    (submit_patient sampleInput
        ⟨none, none, RemoteOutcome.transportFail "timed out", none⟩ emptyDB).db.patients =
      [sampleInput.toRow 1] ∧
    (submit_patient sampleInput
        ⟨none, none, RemoteOutcome.transportFail "timed out", none⟩ emptyDB).db.prescriptions =
      [] := by
  have h := submit_partial_write sampleInput
    ⟨none, none, RemoteOutcome.transportFail "timed out", none⟩ emptyDB rfl rfl
    (Or.inl ⟨GenError.transportError "timed out", rfl⟩)
    (by intro r hr; simp [emptyDB] at hr)
  exact ⟨by simpa [emptyDB] using h.2.1, by simpa [emptyDB] using h.2.2.1⟩

/-- C8: a consult request lacking `patient_id` or `message` is rejected
with the 400 of line 140 before the `try` block — the empty event trace
shows no connection, no store lookup and no inference call. -/
theorem chatbot_missing_field_short_circuits (payload : List (String × JsonVal))
    (env : ChatEnv) (db : DB)
    (h : pyGet payload "patient_id" = none ∨ pyGet payload "message" = none) :
    (chatbot_query payload env db).result =
      ChatResult.httpError 400 requiredFieldsMsg ∧
    (chatbot_query payload env db).events = [] := by
  rcases hp : pyGet payload "patient_id" with _ | pid
  · constructor <;> simp [chatbot_query, hp]
  · rcases hm : pyGet payload "message" with _ | msg
    · constructor <;> simp [chatbot_query, hp, hm]
    · rw [hp, hm] at h
      rcases h with h | h <;> exact absurd h (by simp)

theorem chatbot_missing_field_short_circuits_witness :
    pyGet [("message", JsonVal.jstr "hi")] "patient_id" = none ∧
    (chatbot_query [("message", JsonVal.jstr "hi")] chatEnvOk emptyDB).result =
      ChatResult.httpError 400 requiredFieldsMsg ∧
    (chatbot_query [("message", JsonVal.jstr "hi")] chatEnvOk emptyDB).events = [] := by
  have h := chatbot_missing_field_short_circuits [("message", JsonVal.jstr "hi")]
    chatEnvOk emptyDB (Or.inl rfl)
  exact ⟨rfl, h.1, h.2⟩

/-- C9: prompt construction is a pure, deterministic function of the
structured input fields — the intake prompt depends only on age, symptoms,
medical history and allergies; the consult prompt is a function of the
joined row and the message; and every model call issued by the intake
handler carries exactly the intake prompt of its payload, whatever the
store state and external outcomes are. -/
theorem prompt_builders_pure :
    (∀ d₁ d₂ : PatientInput,
      d₁.age = d₂.age → d₁.symptoms = d₂.symptoms →
      d₁.medical_history = d₂.medical_history → d₁.allergies = d₂.allergies →
      intakePrompt d₁ = intakePrompt d₂) ∧
    (∀ (r₁ r₂ : ConsultRow) (m₁ m₂ : JsonVal), r₁ = r₂ → m₁ = m₂ →
      consultPrompt r₁ m₁ = consultPrompt r₂ m₂) ∧
    (∀ (d : PatientInput) (env : SubmitEnv) (db : DB) (p : String),
      Event.modelCall p ∈ (submit_patient d env db).events →
      p = intakePrompt d) := by
  refine ⟨?_, ?_, ?_⟩
  · intro d₁ d₂ ha hs hm hal
    simp [intakePrompt, ha, hs, hm, hal]
  · intro r₁ r₂ m₁ m₂ hr hm
    rw [hr, hm]
  · intro d env db p hp
    rcases hc : env.connFail with _ | m
    · rcases hi : env.insertPatientFail with _ | m
      · rcases hg : generate_ai_response env.remote with e | s
        · simp [submit_patient, hc, hi, hg] at hp
          exact hp
        · rcases hr : env.insertPrescriptionFail with _ | m <;>
            simp [submit_patient, hc, hi, hg, hr] at hp <;> exact hp
      · simp [submit_patient, hc, hi] at hp
    · simp [submit_patient, hc] at hp

theorem prompt_builders_pure_witness :
    intakePrompt ⟨"Alice", 30, 70, 170, "penicillin", "asthma", "cough"⟩ =
      intakePrompt ⟨"Bob", 30, 81, 160, "penicillin", "asthma", "cough"⟩ ∧
    consultPrompt ⟨"A", 1, "a", "b", "c", "d", "e", "f"⟩ (JsonVal.jstr "q") =
      consultPrompt ⟨"A", 1, "a", "b", "c", "d", "e", "f"⟩ (JsonVal.jstr "q") ∧
    intakePrompt sampleInput = intakePrompt sampleInput := by
  refine ⟨prompt_builders_pure.1 _ _ rfl rfl rfl rfl,
    prompt_builders_pure.2.1 _ _ _ _ rfl rfl,
    prompt_builders_pure.2.2 sampleInput ⟨none, none, okRemote, none⟩ emptyDB _ ?_⟩
  show Event.modelCall (intakePrompt sampleInput) ∈
    [Event.connOpen, Event.modelCall (intakePrompt sampleInput), Event.connClose]
  exact List.mem_cons_of_mem _ (List.mem_cons_self _ _)

/-- C10: the consult handler treats a present-but-falsy `patient_id` or
`message` (e.g. the integer 0, or an empty string) exactly like an absent
field — the Python truthiness test of line 139 rejects it with the 400 of
line 140 before any store lookup, so no patient can be consulted under
identifier 0 even when such a record exists. -/
theorem chatbot_falsy_field_short_circuits (payload : List (String × JsonVal))
    (env : ChatEnv) (db : DB)
    (h : (∃ v, pyGet payload "patient_id" = some v ∧ v.truthy = false) ∨
      (∃ v, pyGet payload "message" = some v ∧ v.truthy = false)) :
    (chatbot_query payload env db).result =
      ChatResult.httpError 400 requiredFieldsMsg ∧
    (chatbot_query payload env db).events = [] := by
  rcases hp : pyGet payload "patient_id" with _ | pid
  · constructor <;> simp [chatbot_query, hp]
  · rcases hm : pyGet payload "message" with _ | msg
    · constructor <;> simp [chatbot_query, hp, hm]
    · have hfalse : (pid.truthy && msg.truthy) = false := by
        rcases h with ⟨v, hv, hvf⟩ | ⟨v, hv, hvf⟩
        · rw [hp] at hv
          injection hv with hv
          subst hv
          simp [hvf]
        · rw [hm] at hv
          injection hv with hv
          subst hv
          simp [hvf]
      constructor <;> simp [chatbot_query, hp, hm, hfalse]

/-- A store that does contain a patient under identifier 0, with a linked
prescription row. -/
def zeroPatientDB : DB :=
  ⟨[⟨0, "Zed", 40, 60, 160, "none", "none", "none"⟩],
    [⟨1, 0, "s", "s", "s"⟩], 2, 2⟩

theorem chatbot_falsy_field_short_circuits_witness :
    pyGet [("patient_id", JsonVal.jnum 0), ("message", JsonVal.jstr "hi")]
      "patient_id" = some (JsonVal.jnum 0) ∧
    (JsonVal.jnum 0).truthy = false ∧
    (chatbot_query [("patient_id", JsonVal.jnum 0), ("message", JsonVal.jstr "hi")]
        chatEnvOk zeroPatientDB).result =
      ChatResult.httpError 400 requiredFieldsMsg ∧
    (chatbot_query [("patient_id", JsonVal.jnum 0), ("message", JsonVal.jstr "hi")]
        chatEnvOk zeroPatientDB).events = [] := by
  have h := chatbot_falsy_field_short_circuits
    [("patient_id", JsonVal.jnum 0), ("message", JsonVal.jstr "hi")]
    chatEnvOk zeroPatientDB (Or.inl ⟨JsonVal.jnum 0, rfl, rfl⟩)
  exact ⟨rfl, rfl, h.1, h.2⟩

end Clinic
